import Mathlib

/-!
Shallow embedding of the pepperez.com portfolio scripts and proofs of the
specification claims.  Modules covered: the projects data table, the
ImageLoader module (path fixing, gallery path generation, preloading cache),
the Gallery lightbox, the Slideshow transition lock, the MobileSlider
navigation, the GridLayout dimension search, and the page initialisation
entry points of main.js.  Browser state (window.innerWidth, DOM element
existence, URL parameters) is passed explicitly; numbers computed with
floating point in the source are modelled with exact rationals.
-/

namespace Pepperez

/-- Slide template record: a layout type name paired with its image paths. -/
structure SlideTemplate where
  type : String
  images : List String
deriving DecidableEq

/-- Project record from the static projects table.  Absent optional fields
of the source objects (galleryImages, namingPattern, slideshowImages) are
modelled by the empty list or empty string, which the source treats the
same way through JavaScript truthiness in every place they are read. -/
structure Project where
  id : String
  title : String
  description : String
  date : String
  location : String
  client : String
  folder : String
  coverImage : String
  slideTemplates : List SlideTemplate
  totalImages : Nat
  galleryImages : List String := []
  namingPattern : String := ""
  slideshowImages : List String := []
deriving DecidableEq

/-- Static projects table from the data file (trailing part of mobileSlider.js). -/
def projects : List Project :=
  [ { id := "P-01"
    , title := "Ladakhi Bakers"
    , description := "A series exploring the intersection of architecture and nature in urban environments. This project captures the contrast between rigid structures and organic forms in cities around the world."
    , date := "October 2024"
    , location := "Ladakh, India"
    , client := "Personal Project"
    , folder := "P-01"
    , coverImage := "images/P-01/Ladakhi-Bakers1.webp"
    , slideTemplates :=
        [ { type := "main", images := ["images/P-01/Ladakhi-Bakers1.webp"] }
        , { type := "fullheight", images := ["images/P-01/Ladakhi-Bakers2.webp"] }
        , { type := "diptych", images := ["images/P-01/Ladakhi-Bakers3.webp", "images/P-01/Ladakhi-Bakers4.webp"] }
        , { type := "main", images := ["images/P-01/Ladakhi-Bakers5.webp"] }
        , { type := "fullscreen", images := ["images/P-01/Ladakhi-Bakers6.webp"] } ]
    , totalImages := 56 }
  , { id := "P-02"
    , title := "366 Miralls"
    , description := "A contemplative study of coastlines and the relationship between land and sea. This series captures the ephemeral nature of coastal landscapes, documenting the ever-changing dialogue between solid ground and flowing water."
    , date := "February 2023"
    , location := "Barcelona, Spain"
    , client := "Personal Project"
    , folder := "P-02"
    , coverImage := "images/P-02/Miralls1.webp"
    , slideTemplates :=
        [ { type := "fullheight", images := ["images/P-02/Miralls1.webp"] }
        , { type := "diptych", images := ["images/P-02/Miralls2.webp", "images/P-02/Miralls3.webp"] }
        , { type := "fullscreen", images := ["images/P-02/Miralls4.webp"] } ]
    , totalImages := 15 }
  , { id := "P-03"
    , title := "Moro[cc]o"
    , description := "A contemplative study of coastlines and the relationship between land and sea. This series captures the ephemeral nature of coastal landscapes, documenting the ever-changing dialogue between solid ground and flowing water."
    , date := "February 2023"
    , location := "Morocco"
    , client := "Personal Project"
    , folder := "P-03"
    , coverImage := "images/P-03/Morocco1.webp"
    , slideTemplates :=
        [ { type := "fullheight", images := ["images/P-03/Morocco1.webp"] }
        , { type := "diptych", images := ["images/P-03/Morocco2.webp", "images/P-03/Morocco3.webp"] }
        , { type := "fullscreen", images := ["images/P-03/Morocco4.webp"] } ]
    , totalImages := 110 }
  , { id := "P-04"
    , title := "Factory x Thinking Mu"
    , description := "A contemplative study of coastlines and the relationship between land and sea. This series captures the ephemeral nature of coastal landscapes, documenting the ever-changing dialogue between solid ground and flowing water."
    , date := "February 2023"
    , location := "India"
    , client := "Personal Project"
    , folder := "P-04"
    , coverImage := "images/P-04/Thinking-Mu1.webp"
    , slideTemplates :=
        [ { type := "fullheight", images := ["images/P-04/Thinking-Mu1.webp"] }
        , { type := "diptych", images := ["images/P-04/Thinking-Mu2.webp", "images/P-04/Thinking-Mu3.webp"] }
        , { type := "fullscreen", images := ["images/P-04/Thinking-Mu4.webp"] } ]
    , totalImages := 137 }
  , { id := "P-05"
    , title := "Two days in Varanasi"
    , description := "A contemplative study of coastlines and the relationship between land and sea. This series captures the ephemeral nature of coastal landscapes, documenting the ever-changing dialogue between solid ground and flowing water."
    , date := "February 2023"
    , location := "Varanasi, India"
    , client := "Personal Project"
    , folder := "P-05"
    , coverImage := "images/P-05/Varanasi1.webp"
    , slideTemplates :=
        [ { type := "fullheight", images := ["images/P-05/Varanasi1.webp"] }
        , { type := "diptych", images := ["images/P-05/Varanasi2.webp", "images/P-05/Varanasi3.webp"] }
        , { type := "fullscreen", images := ["images/P-05/Varanasi4.webp"] } ]
    , totalImages := 50 }
  , { id := "P-06"
    , title := "Kirguistan"
    , description := "A contemplative study of coastlines and the relationship between land and sea. This series captures the ephemeral nature of coastal landscapes, documenting the ever-changing dialogue between solid ground and flowing water."
    , date := "February 2023"
    , location := "Kirguistan"
    , client := "Personal Project"
    , folder := "P-06"
    , coverImage := "images/P-06/Kirguistan1.webp"
    , slideTemplates :=
        [ { type := "fullheight", images := ["images/P-06/Kirguistan1.webp"] }
        , { type := "diptych", images := ["images/P-06/Kirguistan2.webp", "images/P-06/Kirguistan3.webp"] }
        , { type := "fullscreen", images := ["images/P-06/Kirguistan4.webp"] } ]
    , totalImages := 35 }
  , { id := "P-07"
    , title := "Georgia"
    , description := "A contemplative study of coastlines and the relationship between land and sea. This series captures the ephemeral nature of coastal landscapes, documenting the ever-changing dialogue between solid ground and flowing water."
    , date := "February 2023"
    , location := "Georgia"
    , client := "Personal Project"
    , folder := "P-07"
    , coverImage := "images/P-07/Georgia1.webp"
    , slideTemplates :=
        [ { type := "fullheight", images := ["images/P-07/Georgia1.webp"] }
        , { type := "diptych", images := ["images/P-07/Georgia2.webp", "images/P-07/Georgia3.webp"] }
        , { type := "fullscreen", images := ["images/P-07/Georgia4.webp"] } ]
    , totalImages := 83 }
  , { id := "P-08"
    , title := "The Jumping Age"
    , description := "A contemplative study of coastlines and the relationship between land and sea. This series captures the ephemeral nature of coastal landscapes, documenting the ever-changing dialogue between solid ground and flowing water."
    , date := "February 2023"
    , location := "Barcelona, Spain"
    , client := "Personal Project"
    , folder := "P-08"
    , coverImage := "images/P-08/TheJumpingAge5.webp"
    , slideTemplates :=
        [ { type := "fullheight", images := ["images/P-08/TheJumpingAge5.webp"] }
        , { type := "diptych", images := ["images/P-08/TheJumpingAge1.webp", "images/P-08/TheJumpingAge2.webp"] }
        , { type := "fullscreen", images := ["images/P-08/TheJumpingAge3.webp"] } ]
    , totalImages := 32 }
  , { id := "P-09"
    , title := "Commercial"
    , description := "A contemplative study of coastlines and the relationship between land and sea. This series captures the ephemeral nature of coastal landscapes, documenting the ever-changing dialogue between solid ground and flowing water."
    , date := "February 2023"
    , location := "Barcelona, Spain"
    , client := "Personal Project"
    , folder := "P-09"
    , coverImage := "images/P-09/Comercial2.webp"
    , slideTemplates :=
        [ { type := "fullheight", images := ["images/P-09/Comercial2.webp"] }
        , { type := "diptych", images := ["images/P-09/Comercial1.webp", "images/P-09/Comercial3.webp"] }
        , { type := "fullscreen", images := ["images/P-09/Comercial4.webp"] } ]
    , totalImages := 93 } ]

/-- ImageLoader.fixImagePath: prepend "../" when the page lives under
templates/ and the path is neither already relative to the parent nor an
absolute http url.  The window.location test is passed in as a flag. -/
def fixImagePath (inTemplates : Bool) (imagePath : String) : String :=
  if inTemplates ∧ ¬ imagePath.startsWith ("../") ∧ ¬ imagePath.startsWith ("http") then
    "../" ++ imagePath
  else
    imagePath

/-- Replacement of the first occurrence of a pattern in a character list,
the semantics of the JavaScript String.replace with a string pattern. -/
def replaceFirstAux : List Char → List Char → List Char → List Char
  | [], _pat, _rep => []
  | c :: rest, pat, rep =>
    if pat.isPrefixOf (c :: rest) then rep ++ (c :: rest).drop pat.length
    else c :: replaceFirstAux rest pat rep

/-- Replacement of the first occurrence of a pattern in a string. -/
def replaceFirst (s pat rep : String) : String :=
  String.mk (replaceFirstAux s.data pat.data rep.data)

/-- JavaScript padStart(2, zero) used for the i2 placeholder. -/
def pad2 (s : String) : String :=
  if 2 ≤ s.length then s else String.mk (List.replicate (2 - s.length) '0') ++ s

/-- Known project id to file-name slug mappings from generateProjectNameSlug. -/
def projectNameMapping (id : String) : Option String :=
  if id = "P-01" then some ("Ladakhi-Bakers")
  else if id = "P-02" then some ("Miralls")
  else if id = "P-03" then some ("Morocco")
  else if id = "P-04" then some ("Thinking-Mu")
  else if id = "P-05" then some ("Varanasi")
  else if id = "P-06" then some ("Kirguistan")
  else if id = "P-07" then some ("Georgia")
  else if id = "P-08" then some ("TheJumpingAge")
  else if id = "P-09" then some ("Comercial")
  else none

/-- Collapse runs of hyphens to a single hyphen (the hyphen-run regex
replacement of the source). -/
def collapseHyphens : List Char → List Char
  | [] => []
  | [c] => [c]
  | c :: d :: rest =>
    if c = '-' ∧ d = '-' then collapseHyphens (d :: rest)
    else c :: collapseHyphens (d :: rest)

/-- Remove leading and trailing hyphens (the anchored hyphen regex
replacement of the source). -/
def trimHyphens (l : List Char) : List Char :=
  ((l.dropWhile (fun c => c = '-')).reverse.dropWhile (fun c => c = '-')).reverse

/-- Fallback slug generation from the project title: drop brackets and
parentheses, turn whitespace into hyphens, drop the remaining characters
that are not alphanumeric or hyphen, collapse hyphen runs, trim hyphens.
Mapping each whitespace character to a hyphen before the hyphen-run
collapse yields the same result as the whitespace-run replacement of the
source because the collapse merges the adjacent hyphens. -/
def slugFromTitle (title : String) : String :=
  let s1 := title.data.filter (fun c => ¬ (c = '[' ∨ c = ']' ∨ c = '(' ∨ c = ')'))
  let s2 := s1.map (fun c => if c.isWhitespace then '-' else c)
  let s3 := s2.filter (fun c => c.isAlphanum ∨ c = '-')
  String.mk (trimHyphens (collapseHyphens s3))

/-- ImageLoader.generateProjectNameSlug. -/
def generateProjectNameSlug (p : Project) : String :=
  match projectNameMapping p.id with
  | some s => s
  | none => slugFromTitle p.title

/-- Folder directory used by path generation: project.folder or project.id. -/
def folderOrId (p : Project) : String :=
  if p.folder = "" then p.id else p.folder

/-- Gallery image path at index i (1-based), from getGalleryImagePaths: the
custom naming pattern with its placeholders replaced (first occurrence
each, in source order), or the slug-based default path. -/
def instantiatePattern (p : Project) (i : Nat) : String :=
  if p.namingPattern ≠ "" then
    replaceFirst
      (replaceFirst
        (replaceFirst
          (replaceFirst p.namingPattern ("{id}") p.id)
          ("{i}") (toString i))
        ("{i2}") (pad2 (toString i)))
      ("{folder}") (folderOrId p)
  else
    "images/" ++ folderOrId p ++ "/" ++ generateProjectNameSlug p ++ toString i ++ ".webp"

/-- Auto generation loop of getGalleryImagePaths: indices 1..totalImages,
pushing the fixed path only when the instantiated path is non-empty. -/
def autoGenPaths (inTemplates : Bool) (p : Project) : List String :=
  (List.range p.totalImages).foldl
    (fun acc k =>
      if instantiatePattern p (k + 1) ≠ "" then
        acc ++ [fixImagePath inTemplates (instantiatePattern p (k + 1))]
      else acc)
    []

/-- Concatenation of all slide template images (the allImages accumulation). -/
def templatesImages (p : Project) : List String :=
  p.slideTemplates.foldl (fun acc t => acc ++ t.images) []

/-- Final fallbacks of getGalleryImagePaths: slide template images, then
legacy slideshowImages, then the empty list. -/
def galleryFallback (inTemplates : Bool) (p : Project) : List String :=
  if 0 < p.slideTemplates.length then (templatesImages p).map (fixImagePath inTemplates)
  else if 0 < p.slideshowImages.length then p.slideshowImages.map (fixImagePath inTemplates)
  else []

/-- ImageLoader.getGalleryImagePaths. -/
def getGalleryImagePaths (inTemplates : Bool) (p : Project) : List String :=
  if 0 < p.galleryImages.length then
    if 0 < p.totalImages then (p.galleryImages.map (fixImagePath inTemplates)).take p.totalImages
    else p.galleryImages.map (fixImagePath inTemplates)
  else if 0 < p.totalImages then
    if 0 < (autoGenPaths inTemplates p).length then autoGenPaths inTemplates p
    else galleryFallback inTemplates p
  else
    galleryFallback inTemplates p

/-- ImageLoader.getSlideshowImagePaths. -/
def getSlideshowImagePaths (inTemplates : Bool) (p : Project) : List String :=
  if 0 < p.slideTemplates.length then (templatesImages p).map (fixImagePath inTemplates)
  else p.slideshowImages.map (fixImagePath inTemplates)

/-- Synchronous footprint of one ImageLoader.preloadImages call on the
loadedImages cache: the filtered request list, the grown cache, and
whether the callback fires immediately because nothing is left to load. -/
structure PreloadResult where
  requests : List String
  newCache : List String
  callbackImmediate : Bool
deriving DecidableEq

/-- ImageLoader.preloadImages: filter out cached paths, request the rest,
add every requested path to the cache; with nothing to load the callback
is invoked at once. -/
def preloadImages (loadedImages : List String) (imagePaths : List String) : PreloadResult :=
  let imagesToLoad := imagePaths.filter (fun path => decide (¬ path ∈ loadedImages))
  { requests := imagesToLoad
  , newCache := loadedImages ++ imagesToLoad
  , callbackImmediate := imagesToLoad.isEmpty }

/-- Request lists of a sequence of preloadImages calls, threading the cache. -/
def runPreloadCalls (cache : List String) : List (List String) → List (List String)
  | [] => []
  | ps :: rest =>
    (preloadImages cache ps).requests :: runPreloadCalls (preloadImages cache ps).newCache rest

/-- Number of calls in a sequence whose request list contains a given url. -/
def callsRequesting (u : String) (reqLists : List (List String)) : Nat :=
  (reqLists.filter (fun l => decide (u ∈ l))).length

/-- Settlement loop of preloadImages: each settled image, loaded or errored,
runs imageLoaded, incrementing the counter and firing the callback when the
counter reaches the number of requested images.  The Boolean outcome of a
settlement (success or error) is not inspected, mirroring onload and
onerror both being imageLoaded. -/
def settleFold (target : Nat) : List Bool → Nat → Bool → Bool
  | [], _count, fired => fired
  | _outcome :: rest, count, fired =>
    settleFold target rest (count + 1) (fired || decide (count + 1 = target))

/-- Whether the callback of a preloadImages call has fired after the given
settlement outcomes (immediately when nothing was left to load). -/
def preloadCallbackFired (cache paths : List String) (outcomes : List Bool) : Bool :=
  if (preloadImages cache paths).requests.length = 0 then true
  else settleFold (preloadImages cache paths).requests.length outcomes 0 false

/-- Observable state of the Gallery lightbox: the image list, the current
index, the lightbox image source, and the project cell counter text (none
when the counter element is absent). -/
structure GalleryState where
  galleryImages : List String
  currentImageIndex : Nat
  lightboxSrc : Option String
  projectCounterText : Option String
deriving DecidableEq

/-- Gallery.updateLightboxImage: set the lightbox image source from the
current index and refresh the project cell counter (the adjacent-image
preloading it also triggers only touches the ImageLoader cache). -/
def updateLightboxImage (s : GalleryState) : GalleryState :=
  { s with
    lightboxSrc := s.galleryImages.get? s.currentImageIndex
    projectCounterText := s.projectCounterText.map
      (fun _ => toString (s.currentImageIndex + 1) ++ " / " ++ toString s.galleryImages.length) }

/-- Gallery.nextImage.  The source computes (currentImageIndex + 1) modulo
the gallery length on JavaScript numbers; over naturals this is the same
expression. -/
def nextImage (s : GalleryState) : GalleryState :=
  updateLightboxImage
    { s with currentImageIndex := (s.currentImageIndex + 1) % s.galleryImages.length }

/-- Gallery.prevImage.  The source computes
(currentImageIndex - 1 + length) modulo length; for a natural index and a
positive length this equals (currentImageIndex + length - 1) modulo length,
which stays in the naturals. -/
def prevImage (s : GalleryState) : GalleryState :=
  updateLightboxImage
    { s with currentImageIndex :=
        (s.currentImageIndex + s.galleryImages.length - 1) % s.galleryImages.length }

/-- Shared per-gallery loading state of Gallery.createGalleryItems: the
settled-image counter, the container loading class, hidden items, warning
log and per-image classes. -/
structure GalleryLoadState where
  loadedCount : Nat
  galleryLoading : Bool
  hiddenItems : List Nat
  warnings : List String
  loadedClassItems : List Nat
  errorClassItems : List Nat
deriving DecidableEq

/-- Threshold at which the gallery loading class is removed:
min(5, totalImages * 0.2). -/
def galleryLoadThreshold (totalImages : Nat) : ℚ :=
  min 5 ((totalImages : ℚ) * (2 / 10))

/-- Loading class after a settlement raised the counter to loadedCount. -/
def galleryLoadingAfter (totalImages loadedCount : Nat) (current : Bool) : Bool :=
  if galleryLoadThreshold totalImages ≤ (loadedCount : ℚ) then false else current

/-- Load handler of a gallery image: swap loading class for loaded class,
bump the shared counter, drop the container loading class past the
threshold. -/
def onImageLoad (totalImages : Nat) (s : GalleryLoadState) (idx : Nat) : GalleryLoadState :=
  { s with
    loadedCount := s.loadedCount + 1
    loadedClassItems := idx :: s.loadedClassItems
    galleryLoading := galleryLoadingAfter totalImages (s.loadedCount + 1) s.galleryLoading }

/-- Error handler of a gallery image: swap loading class for error class,
log a warning, hide the gallery item, and still bump the shared counter
with the same threshold check as a successful load. -/
def onImageError (totalImages : Nat) (s : GalleryLoadState) (idx : Nat) (imagePath : String) :
    GalleryLoadState :=
  { s with
    loadedCount := s.loadedCount + 1
    errorClassItems := idx :: s.errorClassItems
    warnings := s.warnings ++ ["Failed to load image: " ++ imagePath]
    hiddenItems := idx :: s.hiddenItems
    galleryLoading := galleryLoadingAfter totalImages (s.loadedCount + 1) s.galleryLoading }

/-- Observable state of the desktop Slideshow: slide count, current index,
transition lock, the active slide, and the two counters (none models a
missing DOM element). -/
structure SlideshowState where
  numSlides : Nat
  currentIndex : Nat
  isTransitioning : Bool
  activeSlide : Option Nat
  currentSlideText : Option String
  projectCounterText : Option String
deriving DecidableEq

/-- Slideshow.showSlide: refuse to do anything while a transition is in
flight; otherwise wrap the requested index into bounds, make it current and
active, update both counters, and take the transition lock (released later
by the 300ms timer). -/
def showSlide (s : SlideshowState) (index : Int) : SlideshowState :=
  if s.isTransitioning then s
  else
    let idx : Nat :=
      if index < 0 then s.numSlides - 1
      else if (s.numSlides : Int) ≤ index then 0
      else index.toNat
    { s with
      isTransitioning := true
      currentIndex := idx
      activeSlide := some idx
      currentSlideText := s.currentSlideText.map (fun _ => toString (idx + 1))
      projectCounterText := s.projectCounterText.map
        (fun _ => toString (idx + 1) ++ " / " ++ toString s.numSlides) }

/-- Slideshow.prev. -/
def slideshowPrev (s : SlideshowState) : SlideshowState :=
  showSlide s ((s.currentIndex : Int) - 1)

/-- Slideshow.next. -/
def slideshowNext (s : SlideshowState) : SlideshowState :=
  showSlide s ((s.currentIndex : Int) + 1)

/-- Firing of the 300ms setTimeout that releases the transition lock. -/
def lockTimerFire (s : SlideshowState) : SlideshowState :=
  { s with isTransitioning := false }

/-- Events acting on the slideshow state: direct showSlide calls, the prev
and next wrappers, and the lock-release timer. -/
inductive SlideshowEv where
  | showEv (i : Int)
  | prevE
  | nextE
  | lockFire
deriving DecidableEq

/-- Transition function of the slideshow event system. -/
def slideshowStep (s : SlideshowState) : SlideshowEv → SlideshowState
  | .showEv i => showSlide s i
  | .prevE => slideshowPrev s
  | .nextE => slideshowNext s
  | .lockFire => lockTimerFire s

/-- Observable state of the homepage MobileSlider: slide count and current
index. -/
structure MobileSliderState where
  numSlides : Nat
  currentSlideIndex : Nat
deriving DecidableEq

/-- MobileSlider.goToNextSlide: advance only below the last slide.  The
source guard currentSlideIndex < slides.length - 1 on JavaScript numbers
equals currentSlideIndex + 1 < length for a natural index. -/
def goToNextSlide (s : MobileSliderState) : MobileSliderState :=
  if s.currentSlideIndex + 1 < s.numSlides then
    { s with currentSlideIndex := s.currentSlideIndex + 1 }
  else s

/-- MobileSlider.goToPrevSlide: step back only above the first slide. -/
def goToPrevSlide (s : MobileSliderState) : MobileSliderState :=
  if 0 < s.currentSlideIndex then
    { s with currentSlideIndex := s.currentSlideIndex - 1 }
  else s

/-- Navigation events of the mobile slider. -/
inductive MobileNavEv where
  | nextE
  | prevE
deriving DecidableEq

/-- Transition function of the mobile slider navigation. -/
def mobileNavStep (s : MobileSliderState) : MobileNavEv → MobileSliderState
  | .nextE => goToNextSlide s
  | .prevE => goToPrevSlide s

/-- Viewport dimensions (window.innerWidth and window.innerHeight), exact
rationals in place of floating point. -/
structure Viewport where
  width : ℚ
  height : ℚ
deriving DecidableEq

/-- Grid layout configuration returned by calculateGridDimensions. -/
structure GridConfig where
  cols : Nat
  rows : Nat
  cellWidth : ℚ
  cellHeight : ℚ
  cellRatioVal : ℚ
  totalItems : Nat
  score : ℚ
deriving DecidableEq

/-- Ceiling division on naturals, the Math.ceil(a / b) of the source for
natural operands. -/
def ceilDivNat (a b : Nat) : Nat :=
  (a + b - 1) / b

/-- Responsive minimum cell width from the viewport width breakpoints. -/
def minCellWidth (v : Viewport) : ℚ :=
  if v.width ≤ 480 then max 100 (v.width * (25 / 100))
  else if v.width ≤ 768 then max 120 (v.width * (20 / 100))
  else if v.width ≤ 1024 then max 140 (v.width * (18 / 100))
  else if v.width ≤ 1400 then max 160 (v.width * (16 / 100))
  else max 200 (v.width * (15 / 100))

/-- Responsive minimum cell height from the viewport width breakpoints. -/
def minCellHeight (v : Viewport) : ℚ :=
  if v.width ≤ 480 then 70
  else if v.width ≤ 768 then 90
  else if v.width ≤ 1024 then 110
  else if v.width ≤ 1400 then 130
  else 150

/-- Ideal cell aspect ratio of the scoring (1.3). -/
def idealRatioVal : ℚ := 13 / 10

/-- Candidate cell width for a row count: viewport width over the column
count needed for that row count. -/
def candCellWidth (v : Viewport) (eff rows : Nat) : ℚ :=
  v.width / ((ceilDivNat eff rows : Nat) : ℚ)

/-- Candidate cell height for a row count. -/
def candCellHeight (v : Viewport) (rows : Nat) : ℚ :=
  v.height / ((rows : Nat) : ℚ)

/-- Candidate cell aspect ratio for a row count. -/
def candRatioVal (v : Viewport) (eff rows : Nat) : ℚ :=
  candCellWidth v eff rows / candCellHeight v rows

/-- Acceptable-size test of a candidate: both cell dimensions at or above
the responsive minimums. -/
def acceptableSize (v : Viewport) (eff rows : Nat) : Prop :=
  minCellWidth v ≤ candCellWidth v eff rows ∧ minCellHeight v ≤ candCellHeight v rows

instance (v : Viewport) (eff rows : Nat) : Decidable (acceptableSize v eff rows) :=
  inferInstanceAs (Decidable (minCellWidth v ≤ candCellWidth v eff rows ∧
    minCellHeight v ≤ candCellHeight v rows))

/-- Viable-size test of a candidate: both cell dimensions at or above 80
percent of the responsive minimums. -/
def viableSize (v : Viewport) (eff rows : Nat) : Prop :=
  minCellWidth v * (8 / 10) ≤ candCellWidth v eff rows ∧
    minCellHeight v * (8 / 10) ≤ candCellHeight v rows

instance (v : Viewport) (eff rows : Nat) : Decidable (viableSize v eff rows) :=
  inferInstanceAs (Decidable (minCellWidth v * (8 / 10) ≤ candCellWidth v eff rows ∧
    minCellHeight v * (8 / 10) ≤ candCellHeight v rows))

/-- Viewport-fit test of a candidate: the whole grid stays inside the
viewport in both dimensions. -/
def fitsViewport (v : Viewport) (eff rows : Nat) : Prop :=
  candCellWidth v eff rows * ((ceilDivNat eff rows : Nat) : ℚ) ≤ v.width ∧
    candCellHeight v rows * ((rows : Nat) : ℚ) ≤ v.height

instance (v : Viewport) (eff rows : Nat) : Decidable (fitsViewport v eff rows) :=
  inferInstanceAs (Decidable (candCellWidth v eff rows * ((ceilDivNat eff rows : Nat) : ℚ) ≤ v.width ∧
    candCellHeight v rows * ((rows : Nat) : ℚ) ≤ v.height))

/-- Total score of a candidate configuration: ratio closeness and size
preference, scaled by the extreme-aspect penalty, the row-count preference
bonus, the size-requirement bonus and the viewport-fit bonus. -/
def gridScore (v : Viewport) (eff rows : Nat) : ℚ :=
  let ratioScore := 1 - |candRatioVal v eff rows - idealRatioVal| / idealRatioVal
  let sizeScore := min (candCellWidth v eff rows) (candCellHeight v rows) / 300
  let aspectPenalty : ℚ :=
    if 3 < candRatioVal v eff rows ∨ candRatioVal v eff rows < 3 / 10 then 1 / 2 else 1
  let rowPreferenceBonus : ℚ := if rows = 3 then 2 else if rows = 3 + 1 then 1 else 1 / 2
  let sizeBonus : ℚ :=
    if acceptableSize v eff rows then 3 / 2 else if viableSize v eff rows then 6 / 5 else 1
  let viewportBonus : ℚ := if fitsViewport v eff rows then 13 / 10 else 8 / 10
  (ratioScore * (25 / 100) + sizeScore * (25 / 100)) * aspectPenalty * rowPreferenceBonus *
    sizeBonus * viewportBonus

/-- Candidate configuration built inside the row-count loop. -/
def gridCandidate (v : Viewport) (eff rows : Nat) : GridConfig :=
  { cols := ceilDivNat eff rows
  , rows := rows
  , cellWidth := candCellWidth v eff rows
  , cellHeight := candCellHeight v rows
  , cellRatioVal := candRatioVal v eff rows
  , totalItems := eff
  , score := gridScore v eff rows }

/-- One iteration of the row-count loop of calculateGridDimensions, for the
given row count: skip candidates that are neither acceptable nor viable
before the maximum row count, otherwise score the candidate, keep it when
it beats the best score or none was kept yet, and on a fitting 3-row
candidate of at least viable size add the extra bonus to the kept
configuration and leave the loop.  Returns the kept configuration, the
best score, and the break flag. -/
def gridLoopIter (v : Viewport) (eff rows maxRows : Nat) (best : Option GridConfig)
    (bestScore : ℚ) : Option GridConfig × ℚ × Bool :=
  if ¬ acceptableSize v eff rows ∧ ¬ viableSize v eff rows ∧ rows < maxRows then
    (best, bestScore, false)
  else if rows = 3 ∧ (acceptableSize v eff rows ∨ viableSize v eff rows) ∧
      fitsViewport v eff rows then
    ((if bestScore < gridScore v eff rows ∨ best = none then some (gridCandidate v eff rows)
      else best).map (fun c => { c with score := c.score + 1 }),
     (if bestScore < gridScore v eff rows ∨ best = none then gridScore v eff rows else bestScore),
     true)
  else
    ((if bestScore < gridScore v eff rows ∨ best = none then some (gridCandidate v eff rows)
      else best),
     (if bestScore < gridScore v eff rows ∨ best = none then gridScore v eff rows else bestScore),
     false)

/-- Effective item count of calculateGridDimensions: one more than the
passed total on mobile viewports, for the contact cell column span. -/
def effItems (v : Viewport) (totalItems : Nat) : Nat :=
  if v.width ≤ 768 then totalItems + 1 else totalItems

/-- Forced-fit fallback configuration: the preferred three rows with cells
scaled to the viewport. -/
def fallbackConfig (v : Viewport) (eff : Nat) : GridConfig :=
  { cols := ceilDivNat eff 3
  , rows := 3
  , cellWidth := v.width / ((ceilDivNat eff 3 : Nat) : ℚ)
  , cellHeight := v.height / 3
  , cellRatioVal := (v.width / ((ceilDivNat eff 3 : Nat) : ℚ)) / (v.height / 3)
  , totalItems := eff
  , score := 1 / 2 }

/-- Result of the row-count loop of calculateGridDimensions: the iteration
for three rows followed, unless the loop broke out, by the iteration for
four rows. -/
def gridSearchResult (v : Viewport) (eff : Nat) : Option GridConfig :=
  if (gridLoopIter v eff 3 4 none 0).2.2 then (gridLoopIter v eff 3 4 none 0).1
  else
    (gridLoopIter v eff 4 4 (gridLoopIter v eff 3 4 none 0).1
      (gridLoopIter v eff 3 4 none 0).2.1).1

/-- GridLayout.calculateGridDimensions: run the row-count loop, then apply
the forced-fit fallback when no configuration was kept or the kept one
overflows the viewport width. -/
def calculateGridDimensions (v : Viewport) (totalItems : Nat) : Option GridConfig :=
  match gridSearchResult v (effItems v totalItems) with
  | none => some (fallbackConfig v (effItems v totalItems))
  | some c =>
    if v.width < c.cellWidth * ((c.cols : Nat) : ℚ) then
      some (fallbackConfig v (effItems v totalItems))
    else some c

/-- Structural invariant of every configuration the search can produce: a
row count of three or four, and the column count the ceiling division of
the effective item count by the row count. -/
def GoodConfig (eff : Nat) (c : GridConfig) : Prop :=
  (c.rows = 3 ∨ c.rows = 4) ∧ c.cols = ceilDivNat eff c.rows

/-- Effects performed by the page initialisation functions of main.js, in
order. -/
inductive PageEffect where
  | consoleError (msg : String)
  | mobileProjectInit (pid : String)
  | mobileGalleryInit (pid : String)
  | renderStaticGrid
  | setDocumentTitle (t : String)
  | setProjectTitle (t : String)
  | setProjectDescription (t : String)
  | setMetadata (date location : String)
  | slideshowInit (images : List String)
  | setGalleryLink (href : String)
  | galleryInit (images : List String)
  | setProjectCounter (t : String)
  | initInfoToggle
deriving DecidableEq

/-- Browser environment read by the page initialisation functions: the
viewport width, whether the page lives under templates/, and which DOM
elements exist. -/
structure PageEnv where
  innerWidth : ℚ
  inTemplates : Bool
  hasProjectsGrid : Bool
  hasProjectTitleEl : Bool
  hasProjectDescriptionEl : Bool
  metadataCount : Nat
  hasSlideshowWrapper : Bool
  hasGalleryLink : Bool
  hasGalleryGrid : Bool
  hasProjectCounter : Bool
deriving DecidableEq

/-- Project lookup of main.js: projects.find on the id. -/
def findProject (ps : List Project) (pid : String) : Option Project :=
  ps.find? (fun p => p.id == pid)

/-- main.js initProjectPage as its ordered effect trace.  A missing project
query parameter or an unknown id logs a console error and returns before
any other effect. -/
def initProjectPage (env : PageEnv) (ps : List Project) (idFromUrl : Option String) :
    List PageEffect :=
  match idFromUrl with
  | none => [PageEffect.consoleError ("No project ID found in URL")]
  | some pid =>
    match findProject ps pid with
    | none => [PageEffect.consoleError ("Project not found: " ++ pid)]
    | some project =>
      if env.innerWidth ≤ 768 then [PageEffect.mobileProjectInit project.id]
      else
        (if env.hasProjectsGrid then [PageEffect.renderStaticGrid] else [])
        ++ [PageEffect.setDocumentTitle (project.title ++ " | Photographer Portfolio")]
        ++ (if env.hasProjectTitleEl then [PageEffect.setProjectTitle project.title] else [])
        ++ (if env.hasProjectDescriptionEl then
              [PageEffect.setProjectDescription project.description] else [])
        ++ (if 2 ≤ env.metadataCount then [PageEffect.setMetadata project.date project.location]
            else [])
        ++ (let slideshowImages := getSlideshowImagePaths env.inTemplates project
            if env.hasSlideshowWrapper ∧ 0 < slideshowImages.length then
              [PageEffect.slideshowInit slideshowImages]
            else [PageEffect.consoleError ("Cannot initialize slideshow")])
        ++ (if env.hasGalleryLink then
              [PageEffect.setGalleryLink ("gallery.html?project=" ++ pid)] else [])
        ++ [PageEffect.initInfoToggle]

/-- main.js initGalleryPage as its ordered effect trace, with the same
early returns on a missing or unknown project id.  On mobile the gallery
continues after the mobile initialisation; the grid, metadata, counter and
info-toggle steps are desktop-only. -/
def initGalleryPage (env : PageEnv) (ps : List Project) (idFromUrl : Option String) :
    List PageEffect :=
  match idFromUrl with
  | none => [PageEffect.consoleError ("No project ID found in URL")]
  | some pid =>
    match findProject ps pid with
    | none => [PageEffect.consoleError ("Project not found: " ++ pid)]
    | some project =>
      (if env.innerWidth ≤ 768 then [PageEffect.mobileGalleryInit project.id] else [])
      ++ (if ¬ env.innerWidth ≤ 768 ∧ env.hasProjectsGrid then [PageEffect.renderStaticGrid]
          else [])
      ++ [PageEffect.setDocumentTitle ("All Images - " ++ project.title ++
            " | Photographer Portfolio")]
      ++ (if ¬ env.innerWidth ≤ 768 then
            (if env.hasProjectTitleEl then [PageEffect.setProjectTitle project.title] else [])
            ++ (if env.hasProjectDescriptionEl then
                  [PageEffect.setProjectDescription project.description] else [])
            ++ (if 2 ≤ env.metadataCount then
                  [PageEffect.setMetadata project.date project.location] else [])
          else [])
      ++ (let galleryImages := getGalleryImagePaths env.inTemplates project
          (if ¬ env.innerWidth ≤ 768 ∧ env.hasProjectCounter ∧ 0 < galleryImages.length then
            [PageEffect.setProjectCounter (toString galleryImages.length ++ " / " ++
              toString galleryImages.length)]
          else [])
          ++ (if env.hasGalleryGrid ∧ 0 < galleryImages.length then
                [PageEffect.galleryInit galleryImages]
              else [PageEffect.consoleError ("Cannot initialize gallery")]))
      ++ (if ¬ env.innerWidth ≤ 768 then [PageEffect.initInfoToggle] else [])

/-- Project record with an empty id and the naming pattern consisting of
the id placeholder alone: every instantiated gallery path is the empty
string, so the generation loop pushes nothing. -/
def badProject : Project :=
  { id := ""
  , title := ""
  , description := ""
  , date := ""
  , location := ""
  , client := ""
  , folder := ""
  , coverImage := ""
  , slideTemplates := []
  , totalImages := 1
  , namingPattern := "{id}" }

/-- Small project record with automatic slug-based gallery generation. -/
def sampleAutoProject : Project :=
  { id := "P-02"
  , title := "366 Miralls"
  , description := ""
  , date := ""
  , location := ""
  , client := ""
  , folder := "P-02"
  , coverImage := "images/P-02/Miralls1.webp"
  , slideTemplates := []
  , totalImages := 15 }

/-- Small project record with a manual galleryImages override longer than
its totalImages limit. -/
def sampleManualProject : Project :=
  { id := "M-01"
  , title := "Manual"
  , description := ""
  , date := ""
  , location := ""
  , client := ""
  , folder := "M-01"
  , coverImage := "a.webp"
  , slideTemplates := []
  , totalImages := 2
  , galleryImages := ["a.webp", "b.webp", "c.webp"] }

/-- Desktop browser environment with every element present. -/
def sampleEnv : PageEnv :=
  { innerWidth := 1200
  , inTemplates := true
  , hasProjectsGrid := true
  , hasProjectTitleEl := true
  , hasProjectDescriptionEl := true
  , metadataCount := 2
  , hasSlideshowWrapper := true
  , hasGalleryLink := true
  , hasGalleryGrid := true
  , hasProjectCounter := true }

/-- Ceiling division multiplied back up covers the dividend. -/
theorem le_ceilDivNat_mul (a b : Nat) (hb : 0 < b) : a ≤ ceilDivNat a b * b := by
  unfold ceilDivNat
  have h := Nat.div_add_mod (a + b - 1) b
  have h2 : (a + b - 1) % b < b := Nat.mod_lt _ hb
  rw [Nat.mul_comm]
  generalize hr : (a + b - 1) % b = r at h h2
  generalize hq : b * ((a + b - 1) / b) = x at h ⊢
  omega

/-- Candidates built by the loop satisfy the structural invariant. -/
theorem gridCandidate_good (v : Viewport) (eff rows : Nat) (h : rows = 3 ∨ rows = 4) :
    GoodConfig eff (gridCandidate v eff rows) :=
  ⟨h, rfl⟩

/-- Bumping the score of a configuration preserves the invariant. -/
theorem bump_good {eff : Nat} {c : GridConfig} (h : GoodConfig eff c) (q : ℚ) :
    GoodConfig eff { c with score := q } :=
  ⟨h.1, h.2⟩

/-- One loop iteration only ever keeps configurations satisfying the
structural invariant. -/
theorem gridLoopIter_good (v : Viewport) (eff rows maxRows : Nat) (best : Option GridConfig)
    (bs : ℚ) (hrows : rows = 3 ∨ rows = 4)
    (hbest : ∀ c, best = some c → GoodConfig eff c) :
    ∀ c, (gridLoopIter v eff rows maxRows best bs).1 = some c → GoodConfig eff c := by
  intro c hc
  unfold gridLoopIter at hc
  by_cases h1 : ¬ acceptableSize v eff rows ∧ ¬ viableSize v eff rows ∧ rows < maxRows
  · rw [if_pos h1] at hc
    exact hbest c hc
  · rw [if_neg h1] at hc
    by_cases h2 : rows = 3 ∧ (acceptableSize v eff rows ∨ viableSize v eff rows) ∧
        fitsViewport v eff rows
    · rw [if_pos h2] at hc
      simp only [Option.map_eq_some'] at hc
      obtain ⟨a, ha, hac⟩ := hc
      subst hac
      by_cases h3 : bs < gridScore v eff rows ∨ best = none
      · rw [if_pos h3] at ha
        cases ha
        exact bump_good (gridCandidate_good v eff rows hrows) _
      · rw [if_neg h3] at ha
        exact bump_good (hbest a ha) _
    · rw [if_neg h2] at hc
      by_cases h3 : bs < gridScore v eff rows ∨ best = none
      · rw [if_pos h3] at hc
        cases hc
        exact gridCandidate_good v eff rows hrows
      · rw [if_neg h3] at hc
        exact hbest c hc

/-- The full row-count search only produces invariant configurations. -/
theorem gridSearchResult_good (v : Viewport) (eff : Nat) :
    ∀ c, gridSearchResult v eff = some c → GoodConfig eff c := by
  intro c hc
  unfold gridSearchResult at hc
  have hfirst := gridLoopIter_good v eff 3 4 none 0 (Or.inl rfl)
    (fun _ h => Option.noConfusion h)
  by_cases hbrk : (gridLoopIter v eff 3 4 none 0).2.2 = true
  · rw [if_pos hbrk] at hc
    exact hfirst c hc
  · rw [if_neg hbrk] at hc
    exact gridLoopIter_good v eff 4 4 _ _ (Or.inr rfl) hfirst c hc

/-- The fallback configuration satisfies the structural invariant. -/
theorem fallbackConfig_good (v : Viewport) (eff : Nat) :
    GoodConfig eff (fallbackConfig v eff) :=
  ⟨Or.inl rfl, rfl⟩

/-- calculateGridDimensions always returns an invariant configuration. -/
theorem calculateGridDimensions_good (v : Viewport) (t : Nat) :
    ∃ c, calculateGridDimensions v t = some c ∧ GoodConfig (effItems v t) c := by
  unfold calculateGridDimensions
  cases hres : gridSearchResult v (effItems v t) with
  | none => exact ⟨_, rfl, fallbackConfig_good v _⟩
  | some c =>
    dsimp only
    by_cases hover : v.width < c.cellWidth * ((c.cols : Nat) : ℚ)
    · rw [if_pos hover]
      exact ⟨_, rfl, fallbackConfig_good v _⟩
    · rw [if_neg hover]
      exact ⟨c, rfl, gridSearchResult_good v _ c hres⟩

/-- Passed item count never exceeds the effective item count. -/
theorem le_effItems (v : Viewport) (t : Nat) : t ≤ effItems v t := by
  unfold effItems
  split <;> omega

/-- Any slideshow event other than the lock-release timer leaves a locked
slideshow state untouched. -/
theorem slideshowStep_locked (s : SlideshowState) (hs : s.isTransitioning = true)
    (e : SlideshowEv) (he : e ≠ SlideshowEv.lockFire) : slideshowStep s e = s := by
  cases e with
  | showEv i => simp [slideshowStep, showSlide, hs]
  | prevE => simp [slideshowStep, slideshowPrev, showSlide, hs]
  | nextE => simp [slideshowStep, slideshowNext, showSlide, hs]
  | lockFire => exact absurd rfl he

/-- A locked slideshow state absorbs any event sequence without a
lock-release timer firing. -/
theorem slideshow_locked_fold (s : SlideshowState) (hs : s.isTransitioning = true) :
    ∀ evs : List SlideshowEv, (∀ e ∈ evs, e ≠ SlideshowEv.lockFire) →
      evs.foldl slideshowStep s = s := by
  intro evs
  induction evs with
  | nil => intro _; rfl
  | cons e rest ih =>
    intro h
    rw [List.foldl_cons, slideshowStep_locked s hs e (h e (by simp))]
    exact ih (fun x hx => h x (by simp [hx]))

/-- One mobile navigation step keeps the slide count and keeps the index in
range. -/
theorem mobileNavStep_invariant (s : MobileSliderState) (e : MobileNavEv) :
    (mobileNavStep s e).numSlides = s.numSlides ∧
      (s.currentSlideIndex < s.numSlides →
        (mobileNavStep s e).currentSlideIndex < s.numSlides) := by
  cases e with
  | nextE =>
    simp only [mobileNavStep]
    unfold goToNextSlide
    by_cases h : s.currentSlideIndex + 1 < s.numSlides
    · rw [if_pos h]
      exact ⟨rfl, fun _ => h⟩
    · rw [if_neg h]
      exact ⟨rfl, id⟩
  | prevE =>
    simp only [mobileNavStep]
    unfold goToPrevSlide
    by_cases h : 0 < s.currentSlideIndex
    · rw [if_pos h]
      exact ⟨rfl, fun hh => by simp only at hh ⊢; omega⟩
    · rw [if_neg h]
      exact ⟨rfl, id⟩

/-- Folded mobile navigation keeps the slide count and keeps the index in
range. -/
theorem mobileNav_fold (evs : List MobileNavEv) :
    ∀ s : MobileSliderState, s.currentSlideIndex < s.numSlides →
      (evs.foldl mobileNavStep s).numSlides = s.numSlides ∧
        (evs.foldl mobileNavStep s).currentSlideIndex < s.numSlides := by
  induction evs with
  | nil => exact fun s h => ⟨rfl, h⟩
  | cons e rest ih =>
    intro s h
    obtain ⟨hnum, hidx⟩ := mobileNavStep_invariant s e
    obtain ⟨hnum2, hidx2⟩ := ih (mobileNavStep s e) (by rw [hnum]; exact hidx h)
    rw [List.foldl_cons]
    refine ⟨by rw [hnum2, hnum], ?_⟩
    rw [hnum] at hidx2
    exact hidx2

/-- Membership in the request list of a preloadImages call. -/
theorem mem_preload_requests {cache ps : List String} {u : String} :
    u ∈ (preloadImages cache ps).requests ↔ u ∈ ps ∧ u ∉ cache := by
  simp [preloadImages, List.mem_filter]

/-- Membership in the cache after a preloadImages call. -/
theorem mem_preload_newCache {cache ps : List String} {u : String} :
    u ∈ (preloadImages cache ps).newCache ↔ u ∈ cache ∨ (u ∈ ps ∧ u ∉ cache) := by
  simp [preloadImages, List.mem_filter]

/-- Unfolding of the per-call request counter. -/
theorem callsRequesting_cons (u : String) (l : List String) (ls : List (List String)) :
    callsRequesting u (l :: ls) = (if u ∈ l then 1 else 0) + callsRequesting u ls := by
  unfold callsRequesting
  by_cases h : u ∈ l <;> simp [List.filter_cons, h, Nat.add_comm]

/-- A url already in the cache is requested by no later call. -/
theorem callsRequesting_zero_of_mem (u : String) :
    ∀ (calls : List (List String)) (cache : List String), u ∈ cache →
      callsRequesting u (runPreloadCalls cache calls) = 0 := by
  intro calls
  induction calls with
  | nil => intro cache _; rfl
  | cons ps rest ih =>
    intro cache hu
    rw [runPreloadCalls, callsRequesting_cons,
      if_neg (fun hmem => ((mem_preload_requests.mp hmem).2 hu)),
      ih _ (mem_preload_newCache.mpr (Or.inl hu))]

/-- Across any call sequence, a url is requested by at most one call. -/
theorem callsRequesting_le_one (u : String) :
    ∀ (calls : List (List String)) (cache : List String),
      callsRequesting u (runPreloadCalls cache calls) ≤ 1 := by
  intro calls
  induction calls with
  | nil => intro cache; exact Nat.zero_le 1
  | cons ps rest ih =>
    intro cache
    rw [runPreloadCalls, callsRequesting_cons]
    by_cases hu : u ∈ (preloadImages cache ps).requests
    · rw [if_pos hu, callsRequesting_zero_of_mem u rest _
        (mem_preload_newCache.mpr (Or.inr (mem_preload_requests.mp hu)))]
    · rw [if_neg hu]
      simpa using ih _

/-- The settlement loop fires the callback once the counter reaches the
target, whatever each settlement outcome was. -/
theorem settleFold_fires (target : Nat) :
    ∀ (outcomes : List Bool) (count : Nat) (fired : Bool),
      count + outcomes.length = target → outcomes ≠ [] →
      settleFold target outcomes count fired = true := by
  intro outcomes
  induction outcomes with
  | nil => intro count fired _ hne; exact absurd rfl hne
  | cons o rest ih =>
    intro count fired h _
    by_cases hr : rest = []
    · subst hr
      simp only [List.length_cons, List.length_nil, Nat.zero_add] at h
      simp [settleFold, show count + 1 = target by omega]
    · have h2 : count + 1 + rest.length = target := by
        simp only [List.length_cons] at h
        omega
      rw [settleFold]
      exact ih (count + 1) _ h2 hr

/-- The generation loop of autoGenPaths produces the mapped range when
every instantiated path is non-empty. -/
theorem autoGen_foldl (inT : Bool) (p : Project) :
    ∀ (n : Nat), (∀ k, k < n → instantiatePattern p (k + 1) ≠ "") →
      ∀ acc : List String,
        (List.range n).foldl
          (fun acc k =>
            if instantiatePattern p (k + 1) ≠ "" then
              acc ++ [fixImagePath inT (instantiatePattern p (k + 1))]
            else acc) acc
        = acc ++ (List.range n).map (fun k => fixImagePath inT (instantiatePattern p (k + 1))) := by
  intro n
  induction n with
  | zero => intro _ acc; simp
  | succ n ih =>
    intro h acc
    rw [List.range_succ, List.foldl_append, List.map_append,
      ih (fun k hk => h k (Nat.lt_succ_of_lt hk)) acc]
    simp only [List.foldl_cons, List.foldl_nil, List.map_cons, List.map_nil]
    rw [if_pos (h n (Nat.lt_succ_self n))]
    simp [List.append_assoc]

/-- C2: for a non-empty gallery of length n and a current index in bounds,
nextImage sets the lightbox index to (index + 1) mod n and prevImage to
(index - 1 + n) mod n, each updating the lightbox image source to the image
at the new index; at the last image nextImage wraps to 0 and at index 0
prevImage wraps to the last image. -/
theorem c2_lightbox_wraps_modulo (imgs : List String) (idx : Nat) (src counter : Option String)
    (hne : imgs ≠ []) (hidx : idx < imgs.length) :
    (nextImage ⟨imgs, idx, src, counter⟩).currentImageIndex = (idx + 1) % imgs.length ∧
    (prevImage ⟨imgs, idx, src, counter⟩).currentImageIndex
        = (idx + imgs.length - 1) % imgs.length ∧
    (idx = imgs.length - 1 → (nextImage ⟨imgs, idx, src, counter⟩).currentImageIndex = 0) ∧
    (idx = 0 → (prevImage ⟨imgs, idx, src, counter⟩).currentImageIndex = imgs.length - 1) ∧
    (nextImage ⟨imgs, idx, src, counter⟩).lightboxSrc = imgs.get? ((idx + 1) % imgs.length) ∧
    (prevImage ⟨imgs, idx, src, counter⟩).lightboxSrc
        = imgs.get? ((idx + imgs.length - 1) % imgs.length) := by
  have hlen : 0 < imgs.length := List.length_pos.mpr hne
  refine ⟨rfl, rfl, ?_, ?_, rfl, rfl⟩
  · intro h
    subst h
    show (imgs.length - 1 + 1) % imgs.length = 0
    rw [Nat.sub_add_cancel hlen, Nat.mod_self]
  · intro h
    subst h
    show (0 + imgs.length - 1) % imgs.length = imgs.length - 1
    rw [Nat.zero_add, Nat.mod_eq_of_lt (by omega)]

/-- C2 witness: concrete three-image gallery at the last index. -/
theorem c2_lightbox_wraps_modulo_witness :
    (nextImage ⟨["a", "b", "c"], 2, none, some ("3 / 3")⟩).currentImageIndex = (2 + 1) % 3 ∧
    (prevImage ⟨["a", "b", "c"], 2, none, some ("3 / 3")⟩).currentImageIndex = (2 + 3 - 1) % 3 ∧
    (2 = 3 - 1 → (nextImage ⟨["a", "b", "c"], 2, none, some ("3 / 3")⟩).currentImageIndex = 0) ∧
    (2 = 0 → (prevImage ⟨["a", "b", "c"], 2, none, some ("3 / 3")⟩).currentImageIndex = 3 - 1) ∧
    (nextImage ⟨["a", "b", "c"], 2, none, some ("3 / 3")⟩).lightboxSrc
        = (["a", "b", "c"] : List String).get? ((2 + 1) % 3) ∧
    (prevImage ⟨["a", "b", "c"], 2, none, some ("3 / 3")⟩).lightboxSrc
        = (["a", "b", "c"] : List String).get? ((2 + 3 - 1) % 3) :=
  c2_lightbox_wraps_modulo ["a", "b", "c"] 2 none (some ("3 / 3")) (by decide) (by decide)

/-- C3: once a showSlide call has taken the transition lock, every further
showSlide, prev or next event before the 300ms lock timer fires leaves the
whole slideshow state (index, active slide, counters) unchanged; the timer
clears the flag, after which showSlide starts a transition again. -/
theorem c3_transition_lock_blocks (s : SlideshowState) (hs : s.isTransitioning = true) :
    (∀ evs : List SlideshowEv, (∀ e ∈ evs, e ≠ SlideshowEv.lockFire) →
      evs.foldl slideshowStep s = s) ∧
    (lockTimerFire s).isTransitioning = false ∧
    (∀ i : Int, (showSlide (lockTimerFire s) i).isTransitioning = true) := by
  refine ⟨slideshow_locked_fold s hs, rfl, ?_⟩
  intro i
  simp [showSlide, lockTimerFire]

/-- C3 witness: a locked five-slide state absorbs a burst of navigation. -/
theorem c3_transition_lock_blocks_witness :
    ([SlideshowEv.showEv 4, SlideshowEv.nextE, SlideshowEv.prevE].foldl slideshowStep
        ⟨5, 2, true, some 2, some ("3"), some ("3 / 5")⟩
      = ⟨5, 2, true, some 2, some ("3"), some ("3 / 5")⟩) ∧
    (lockTimerFire ⟨5, 2, true, some 2, some ("3"), some ("3 / 5")⟩).isTransitioning = false ∧
    (showSlide (lockTimerFire ⟨5, 2, true, some 2, some ("3"), some ("3 / 5")⟩)
        3).isTransitioning = true :=
  ⟨(c3_transition_lock_blocks ⟨5, 2, true, some 2, some ("3"), some ("3 / 5")⟩ rfl).1
      [SlideshowEv.showEv 4, SlideshowEv.nextE, SlideshowEv.prevE] (by decide),
   (c3_transition_lock_blocks ⟨5, 2, true, some 2, some ("3"), some ("3 / 5")⟩ rfl).2.1,
   (c3_transition_lock_blocks ⟨5, 2, true, some 2, some ("3"), some ("3 / 5")⟩ rfl).2.2 3⟩

/-- C5: with the project query parameter absent, or set to an id matching
no record of the projects table, initProjectPage and initGalleryPage log a
console error and return early with none of their other effects. -/
theorem c5_unknown_id_early_return (env : PageEnv) (ps : List Project) (pid : String) :
    initProjectPage env ps none = [PageEffect.consoleError ("No project ID found in URL")] ∧
    initGalleryPage env ps none = [PageEffect.consoleError ("No project ID found in URL")] ∧
    ((∀ p ∈ ps, p.id ≠ pid) →
      initProjectPage env ps (some pid)
          = [PageEffect.consoleError ("Project not found: " ++ pid)] ∧
      initGalleryPage env ps (some pid)
          = [PageEffect.consoleError ("Project not found: " ++ pid)]) := by
  refine ⟨rfl, rfl, ?_⟩
  intro h
  have hfind : findProject ps pid = none := by
    unfold findProject
    rw [List.find?_eq_none]
    intro p hp
    simpa using h p hp
  constructor
  · simp only [initProjectPage, hfind]
  · simp only [initGalleryPage, hfind]

/-- C5 witness: the real projects table with an unknown id on a desktop
environment with every element present. -/
theorem c5_unknown_id_early_return_witness :
    initProjectPage sampleEnv projects none
        = [PageEffect.consoleError ("No project ID found in URL")] ∧
    initGalleryPage sampleEnv projects none
        = [PageEffect.consoleError ("No project ID found in URL")] ∧
    (initProjectPage sampleEnv projects (some ("P-99"))
        = [PageEffect.consoleError ("Project not found: P-99")] ∧
      initGalleryPage sampleEnv projects (some ("P-99"))
        = [PageEffect.consoleError ("Project not found: P-99")]) :=
  ⟨(c5_unknown_id_early_return sampleEnv projects ("P-99")).1,
   (c5_unknown_id_early_return sampleEnv projects ("P-99")).2.1,
   (c5_unknown_id_early_return sampleEnv projects ("P-99")).2.2 (by decide)⟩

/-- C6: the gallery image error handler hides the item, logs a warning and
advances the shared loadedCount exactly as a successful load does, with the
same loading-state threshold test; and the preloadImages callback fires
after all requested images settle, whatever mix of loads and errors the
settlement outcomes were. -/
theorem c6_error_counts_as_loaded (total : Nat) (s : GalleryLoadState) (idx : Nat)
    (path : String) :
    (onImageError total s idx path).loadedCount = s.loadedCount + 1 ∧
    (onImageError total s idx path).loadedCount = (onImageLoad total s idx).loadedCount ∧
    idx ∈ (onImageError total s idx path).hiddenItems ∧
    ("Failed to load image: " ++ path) ∈ (onImageError total s idx path).warnings ∧
    (onImageError total s idx path).galleryLoading = (onImageLoad total s idx).galleryLoading ∧
    (∀ cache paths : List String, ∀ outcomes : List Bool,
      outcomes.length = (preloadImages cache paths).requests.length →
      preloadCallbackFired cache paths outcomes = true) := by
  refine ⟨rfl, rfl, ?_, ?_, rfl, ?_⟩
  · simp [onImageError]
  · simp [onImageError]
  · intro cache paths outcomes hlen
    unfold preloadCallbackFired
    by_cases h0 : (preloadImages cache paths).requests.length = 0
    · rw [if_pos h0]
    · rw [if_neg h0]
      refine settleFold_fires _ outcomes 0 false (by omega) ?_
      intro hnil
      rw [hnil] at hlen
      exact h0 hlen.symm

/-- C6 witness: one errored settlement next to one successful settlement,
and a two-image preload whose first image errors. -/
theorem c6_error_counts_as_loaded_witness :
    (onImageError 10 ⟨0, true, [], [], [], []⟩ 0 ("x.webp")).loadedCount = 0 + 1 ∧
    (onImageError 10 ⟨0, true, [], [], [], []⟩ 0 ("x.webp")).loadedCount
        = (onImageLoad 10 ⟨0, true, [], [], [], []⟩ 0).loadedCount ∧
    0 ∈ (onImageError 10 ⟨0, true, [], [], [], []⟩ 0 ("x.webp")).hiddenItems ∧
    ("Failed to load image: " ++ "x.webp")
        ∈ (onImageError 10 ⟨0, true, [], [], [], []⟩ 0 ("x.webp")).warnings ∧
    (onImageError 10 ⟨0, true, [], [], [], []⟩ 0 ("x.webp")).galleryLoading
        = (onImageLoad 10 ⟨0, true, [], [], [], []⟩ 0).galleryLoading ∧
    preloadCallbackFired [] ["x.webp", "y.webp"] [false, true] = true :=
  ⟨(c6_error_counts_as_loaded 10 ⟨0, true, [], [], [], []⟩ 0 ("x.webp")).1,
   (c6_error_counts_as_loaded 10 ⟨0, true, [], [], [], []⟩ 0 ("x.webp")).2.1,
   (c6_error_counts_as_loaded 10 ⟨0, true, [], [], [], []⟩ 0 ("x.webp")).2.2.1,
   (c6_error_counts_as_loaded 10 ⟨0, true, [], [], [], []⟩ 0 ("x.webp")).2.2.2.1,
   (c6_error_counts_as_loaded 10 ⟨0, true, [], [], [], []⟩ 0 ("x.webp")).2.2.2.2.1,
   (c6_error_counts_as_loaded 10 ⟨0, true, [], [], [], []⟩ 0 ("x.webp")).2.2.2.2.2
     [] ["x.webp", "y.webp"] [false, true] (by decide)⟩

/-- C7 counterexample: a single preloadImages call whose input repeats a
url not yet cached requests that url twice, because the filter against the
cache runs before any path is added to it; so a url is not requested at
most once across a call sequence, refuting the claim as stated. -/
theorem c7_preload_counterexample :
    (preloadImages ([] : List String) ["a", "a"]).requests.count ("a") = 2 ∧
    ¬ ((preloadImages ([] : List String) ["a", "a"]).requests.count ("a") ≤ 1) := by
  constructor <;> decide

/-- C7 amended: across every sequence of preloadImages calls, each url is
requested by at most one call (a url in the cache is filtered out of every
later call, and every requested url enters the cache), and a call whose
paths are all cached issues no requests and fires its callback at once;
within the one requesting call, a url may be requested once per occurrence
in that call's input list. -/
theorem c7_preload_idempotent_amended (cache : List String) (calls : List (List String))
    (u : String) :
    callsRequesting u (runPreloadCalls cache calls) ≤ 1 ∧
    (u ∈ cache → callsRequesting u (runPreloadCalls cache calls) = 0) ∧
    (∀ ps : List String, (∀ p ∈ ps, p ∈ cache) →
      (preloadImages cache ps).requests = [] ∧
      (preloadImages cache ps).callbackImmediate = true) := by
  refine ⟨callsRequesting_le_one u calls cache,
    fun hu => callsRequesting_zero_of_mem u calls cache hu, ?_⟩
  intro ps hps
  have hreq : (preloadImages cache ps).requests = [] := by
    simp only [preloadImages]
    rw [List.filter_eq_nil_iff]
    intro a ha
    simpa using hps a ha
  refine ⟨hreq, ?_⟩
  have h2 : (preloadImages cache ps).callbackImmediate
      = (preloadImages cache ps).requests.isEmpty := rfl
  rw [h2, hreq]
  rfl

/-- C7 amended witness: a cached url is never re-requested across calls,
and an all-cached call is an immediate no-op. -/
theorem c7_preload_idempotent_amended_witness :
    callsRequesting ("a") (runPreloadCalls ["a"] [["a", "b"], ["b"]]) ≤ 1 ∧
    callsRequesting ("a") (runPreloadCalls ["a"] [["a", "b"], ["b"]]) = 0 ∧
    ((preloadImages ["a"] ["a", "a"]).requests = [] ∧
      (preloadImages ["a"] ["a", "a"]).callbackImmediate = true) :=
  ⟨(c7_preload_idempotent_amended ["a"] [["a", "b"], ["b"]] ("a")).1,
   (c7_preload_idempotent_amended ["a"] [["a", "b"], ["b"]] ("a")).2.1 (by decide),
   (c7_preload_idempotent_amended ["a"] [["a", "b"], ["b"]] ("a")).2.2 ["a", "a"] (by decide)⟩

/-- C8: the id fields of the static projects table are pairwise distinct,
so the find on a project id selects at most one record. -/
theorem c8_project_ids_nodup : (projects.map Project.id).Nodup := by
  decide

/-- C9: the homepage mobile slider saturates instead of wrapping:
goToNextSlide at the last slide and goToPrevSlide at the first slide leave
the index unchanged, and any sequence of navigation calls keeps an
in-range index in range. -/
theorem c9_mobile_slider_saturates (n idx : Nat) :
    goToNextSlide ⟨n, n - 1⟩ = ⟨n, n - 1⟩ ∧
    goToPrevSlide ⟨n, 0⟩ = ⟨n, 0⟩ ∧
    (∀ evs : List MobileNavEv, idx < n →
      (evs.foldl mobileNavStep ⟨n, idx⟩).currentSlideIndex < n) := by
  refine ⟨?_, ?_, ?_⟩
  · unfold goToNextSlide
    rw [if_neg (show ¬ (n - 1 + 1 < n) by omega)]
  · unfold goToPrevSlide
    rw [if_neg (show ¬ (0 < 0) by omega)]
  · intro evs h
    exact (mobileNav_fold evs ⟨n, idx⟩ h).2

/-- C9 witness: the nine-project slider starting at the first slide. -/
theorem c9_mobile_slider_saturates_witness :
    goToNextSlide ⟨9, 9 - 1⟩ = ⟨9, 9 - 1⟩ ∧
    goToPrevSlide ⟨9, 0⟩ = ⟨9, 0⟩ ∧
    (([MobileNavEv.nextE, MobileNavEv.nextE, MobileNavEv.prevE].foldl mobileNavStep
        ⟨9, 0⟩).currentSlideIndex < 9) :=
  ⟨(c9_mobile_slider_saturates 9 0).1,
   (c9_mobile_slider_saturates 9 0).2.1,
   (c9_mobile_slider_saturates 9 0).2.2
     [MobileNavEv.nextE, MobileNavEv.nextE, MobileNavEv.prevE] (by decide)⟩

/-- C1 counterexample: on the desktop viewport 1000 by 800 with three items
(two projects plus the contact cell), calculateGridDimensions returns one
column by three rows, and 3 is smaller than totalItems + 1 = 4; so the
claimed bound cols * rows at least totalItems + 1 fails off mobile. -/
theorem c1_grid_covers_items_counterexample :
    (calculateGridDimensions ⟨1000, 800⟩ 3).map (fun c => c.cols * c.rows) = some 3 ∧
    ¬ (3 + 1 ≤ 3) := by
  constructor
  · have heff : effItems ⟨1000, 800⟩ 3 = 3 := by
      unfold effItems
      rw [if_neg (by norm_num)]
    have hacc : acceptableSize ⟨1000, 800⟩ 3 3 := by
      unfold acceptableSize minCellWidth minCellHeight candCellWidth candCellHeight ceilDivNat
      norm_num
    have hfits : fitsViewport ⟨1000, 800⟩ 3 3 := by
      unfold fitsViewport candCellWidth candCellHeight ceilDivNat
      norm_num
    have hiter : gridLoopIter ⟨1000, 800⟩ 3 3 4 none 0
        = (some { gridCandidate ⟨1000, 800⟩ 3 3 with
              score := (gridCandidate ⟨1000, 800⟩ 3 3).score + 1 },
           gridScore ⟨1000, 800⟩ 3 3, true) := by
      unfold gridLoopIter
      rw [if_neg (by simp [hacc]), if_pos ⟨rfl, Or.inl hacc, hfits⟩, if_pos (Or.inr rfl),
        if_pos (Or.inr rfl)]
      rfl
    have hsearch : gridSearchResult ⟨1000, 800⟩ 3
        = some { gridCandidate ⟨1000, 800⟩ 3 3 with
            score := (gridCandidate ⟨1000, 800⟩ 3 3).score + 1 } := by
      unfold gridSearchResult
      rw [hiter]
      rfl
    have hcalc : calculateGridDimensions ⟨1000, 800⟩ 3
        = some { gridCandidate ⟨1000, 800⟩ 3 3 with
            score := (gridCandidate ⟨1000, 800⟩ 3 3).score + 1 } := by
      unfold calculateGridDimensions
      rw [heff, hsearch]
      dsimp only
      split_ifs with h
      · exfalso
        unfold gridCandidate candCellWidth ceilDivNat at h
        norm_num at h
      · rfl
    rw [hcalc]
    show some (ceilDivNat 3 3 * 3) = some 3
    rfl
  · decide

/-- C1 amended: for every item count and viewport, the returned
configuration has natural column and row counts whose product covers the
effective item count: cols * rows is at least totalItems on every
viewport, and at least totalItems + 1 on mobile viewports (width at most
768), where the extra slot for the contact cell span is added; the
unconditional totalItems + 1 bound of the claim holds only there. -/
theorem c1_grid_covers_items_amended (v : Viewport) (totalItems : Nat)
    (_ht : 1 ≤ totalItems) :
    ∃ c, calculateGridDimensions v totalItems = some c ∧
      totalItems ≤ c.cols * c.rows ∧
      (v.width ≤ 768 → totalItems + 1 ≤ c.cols * c.rows) := by
  obtain ⟨c, hc, hrows, hcols⟩ := calculateGridDimensions_good v totalItems
  have hpos : 0 < c.rows := by rcases hrows with h | h <;> omega
  have hcover : effItems v totalItems ≤ c.cols * c.rows := by
    rw [hcols]
    exact le_ceilDivNat_mul _ _ hpos
  refine ⟨c, hc, le_trans (le_effItems v totalItems) hcover, ?_⟩
  intro hm
  unfold effItems at hcover
  rw [if_pos hm] at hcover
  exact hcover

/-- C1 amended witness: ten items on a mobile viewport. -/
theorem c1_grid_covers_items_amended_witness :
    ∃ c, calculateGridDimensions ⟨375, 667⟩ 10 = some c ∧
      10 ≤ c.cols * c.rows ∧
      ((⟨375, 667⟩ : Viewport).width ≤ 768 → 10 + 1 ≤ c.cols * c.rows) :=
  c1_grid_covers_items_amended ⟨375, 667⟩ 10 (by decide)

/-- C4: the search of calculateGridDimensions considers only row counts 3
and 4 with cols the ceiling of effectiveItems over rows, and always
returns a configuration; the forced-fit fallback uses the preferred three
rows with cellWidth equal to the viewport width over the column count, so
its grid width never exceeds the viewport width. -/
theorem c4_grid_search_bounded (v : Viewport) (totalItems : Nat) (ht : 1 ≤ totalItems) :
    (∃ c, calculateGridDimensions v totalItems = some c ∧
      (c.rows = 3 ∨ c.rows = 4) ∧ c.cols = ceilDivNat (effItems v totalItems) c.rows) ∧
    (fallbackConfig v (effItems v totalItems)).rows = 3 ∧
    (fallbackConfig v (effItems v totalItems)).cellWidth
        = v.width / (((fallbackConfig v (effItems v totalItems)).cols : Nat) : ℚ) ∧
    (fallbackConfig v (effItems v totalItems)).cellWidth
        * (((fallbackConfig v (effItems v totalItems)).cols : Nat) : ℚ) ≤ v.width := by
  refine ⟨?_, rfl, rfl, ?_⟩
  · obtain ⟨c, hc, hgood⟩ := calculateGridDimensions_good v totalItems
    exact ⟨c, hc, hgood.1, hgood.2⟩
  · have heff : 1 ≤ effItems v totalItems := le_trans ht (le_effItems v totalItems)
    have hcols : 0 < ceilDivNat (effItems v totalItems) 3 := by
      unfold ceilDivNat
      omega
    have hne : (((ceilDivNat (effItems v totalItems) 3 : Nat)) : ℚ) ≠ 0 :=
      Nat.cast_ne_zero.mpr (by omega)
    show v.width / (((ceilDivNat (effItems v totalItems) 3 : Nat)) : ℚ)
        * (((ceilDivNat (effItems v totalItems) 3 : Nat)) : ℚ) ≤ v.width
    rw [div_mul_cancel₀ v.width hne]

/-- C4 witness: ten items on a desktop viewport. -/
theorem c4_grid_search_bounded_witness :
    (∃ c, calculateGridDimensions ⟨1920, 1080⟩ 10 = some c ∧
      (c.rows = 3 ∨ c.rows = 4) ∧ c.cols = ceilDivNat (effItems ⟨1920, 1080⟩ 10) c.rows) ∧
    (fallbackConfig ⟨1920, 1080⟩ (effItems ⟨1920, 1080⟩ 10)).rows = 3 ∧
    (fallbackConfig ⟨1920, 1080⟩ (effItems ⟨1920, 1080⟩ 10)).cellWidth
        = (⟨1920, 1080⟩ : Viewport).width
          / (((fallbackConfig ⟨1920, 1080⟩ (effItems ⟨1920, 1080⟩ 10)).cols : Nat) : ℚ) ∧
    (fallbackConfig ⟨1920, 1080⟩ (effItems ⟨1920, 1080⟩ 10)).cellWidth
        * (((fallbackConfig ⟨1920, 1080⟩ (effItems ⟨1920, 1080⟩ 10)).cols : Nat) : ℚ)
        ≤ (⟨1920, 1080⟩ : Viewport).width :=
  c4_grid_search_bounded ⟨1920, 1080⟩ 10 (by decide)

/-- C10 counterexample: a project without galleryImages, with totalImages
one and the naming pattern consisting of the id placeholder alone over an
empty id, generates only the empty path, which the loop skips; the result
is empty instead of the claimed one path per index. -/
theorem c10_gallery_paths_counterexample :
    badProject.galleryImages = [] ∧ badProject.totalImages = 1 ∧
    getGalleryImagePaths false badProject = [] ∧
    (getGalleryImagePaths false badProject).length ≠ badProject.totalImages := by
  refine ⟨rfl, rfl, ?_, ?_⟩ <;> decide

/-- C10 amended: for a project without galleryImages and totalImages n
positive, when every instantiated path for indices 1..n is non-empty (the
generation loop drops empty instantiations), getGalleryImagePaths returns
exactly those n paths in index order, each the path-fixed instantiation of
the naming pattern (custom placeholders replaced at first occurrence) or
of the slug-based default; and for a non-empty galleryImages array with
totalImages positive it returns exactly the first
min(totalImages, galleryImages.length) entries, path-fixed, in order. -/
theorem c10_gallery_paths_amended (inT : Bool) (p : Project) :
    (p.galleryImages = [] → 0 < p.totalImages →
      (∀ k, k < p.totalImages → instantiatePattern p (k + 1) ≠ "") →
      getGalleryImagePaths inT p
          = (List.range p.totalImages).map
              (fun k => fixImagePath inT (instantiatePattern p (k + 1))) ∧
        (getGalleryImagePaths inT p).length = p.totalImages) ∧
    (0 < p.galleryImages.length → 0 < p.totalImages →
      getGalleryImagePaths inT p = (p.galleryImages.map (fixImagePath inT)).take p.totalImages ∧
        (getGalleryImagePaths inT p).length = min p.totalImages p.galleryImages.length) := by
  constructor
  · intro hgi htot hne
    have hauto : autoGenPaths inT p
        = (List.range p.totalImages).map
            (fun k => fixImagePath inT (instantiatePattern p (k + 1))) := by
      unfold autoGenPaths
      rw [autoGen_foldl inT p p.totalImages hne []]
      exact List.nil_append _
    have hmain : getGalleryImagePaths inT p
        = (List.range p.totalImages).map
            (fun k => fixImagePath inT (instantiatePattern p (k + 1))) := by
      unfold getGalleryImagePaths
      rw [hauto, if_neg (by rw [hgi]; exact Nat.lt_irrefl 0), if_pos htot,
        if_pos (by simpa using htot)]
    refine ⟨hmain, ?_⟩
    rw [hmain]
    simp
  · intro h1 h2
    have hmain : getGalleryImagePaths inT p
        = (p.galleryImages.map (fixImagePath inT)).take p.totalImages := by
      unfold getGalleryImagePaths
      rw [if_pos h1, if_pos h2]
    refine ⟨hmain, ?_⟩
    rw [hmain]
    simp [List.length_take]

/-- C10 amended witness: the slug-generated gallery of a fifteen-image
project, and a manual three-image override limited to two. -/
theorem c10_gallery_paths_amended_witness :
    (getGalleryImagePaths false sampleAutoProject
        = (List.range 15).map
            (fun k => fixImagePath false (instantiatePattern sampleAutoProject (k + 1))) ∧
      (getGalleryImagePaths false sampleAutoProject).length = 15) ∧
    (getGalleryImagePaths false sampleManualProject
        = (sampleManualProject.galleryImages.map (fixImagePath false)).take 2 ∧
      (getGalleryImagePaths false sampleManualProject).length = min 2 3) :=
  ⟨(c10_gallery_paths_amended false sampleAutoProject).1 (by decide) (by decide) (by decide),
   (c10_gallery_paths_amended false sampleManualProject).2 (by decide) (by decide)⟩

end Pepperez
